import Mathlib

/-!
Verification of the alert dispatch and de-duplication pipeline of
`server/Server.js`: the suppression window (`shouldSend`), the Twilio
notification adapter (`requireTwilio`, `sendImmediateSMS`, `scheduleSMS`),
and the three HTTP handlers (`/api/send-sms`, `/api/schedule-sms`,
`/api/predict`).

The embedding is shallow.  JavaScript values that the server inspects are
modelled by `JsVal` (undefined, null, boolean, number, string); numbers are
rationals, which is exact for every value these claims touch.  Fields such
as `to` and `body` whose only uses are truthiness tests, `||` defaulting and
template interpolation are modelled as plain `String`, with the empty string
standing for every falsy value (undefined, null, "").  `Date.now()` is an
explicit `now : Nat` parameter (milliseconds since the Unix epoch) threaded
into each handler; `Date.prototype.toISOString` is implemented exactly
(`isoOfMillis`).  The Twilio client call is an oracle `ProviderResponse`
(the message-creation promise either resolves with a sid or rejects with a
message); each adapter function also returns the number of provider calls it
made, so that dispatch-counting properties can be stated.
-/

/-- A JavaScript value as far as this server inspects one. -/
inductive JsVal where
  | undef
  | null
  | bool (b : Bool)
  | num (q : Rat)
  | str (s : String)
deriving DecidableEq, Repr

/-- JavaScript truthiness of a `JsVal`. -/
def JsVal.truthy : JsVal → Bool
  | .undef => false
  | .null => false
  | .bool b => b
  | .num q => decide (q ≠ 0)
  | .str s => decide (s ≠ "")

/-- `null`/`undefined`, the values the `??` operator skips over. -/
def JsVal.isNullish : JsVal → Bool
  | .undef => true
  | .null => true
  | _ => false

/-- The JavaScript nullish-coalescing operator `v ?? w`. -/
def JsVal.coalesce (v w : JsVal) : JsVal :=
  if v.isNullish then w else v

/-- Numeric value of a list of decimal digit characters. -/
def digitsToNat (l : List Char) : Nat :=
  l.foldl (fun a c => a * 10 + (c.toNat - 48)) 0

/-- Parse an unsigned decimal numeral (digits, optionally a point and more
digits); `none` when the characters are not of that shape. -/
def parseUnsigned (l : List Char) : Option Rat :=
  let ip := l.takeWhile Char.isDigit
  let rest := l.dropWhile Char.isDigit
  match rest with
  | [] => if ip.isEmpty then none else some (digitsToNat ip : Rat)
  | '.' :: frac =>
      if frac.all Char.isDigit && !(ip.isEmpty && frac.isEmpty) then
        some ((digitsToNat ip : Rat) + (digitsToNat frac : Rat) / ((10 : Rat) ^ frac.length))
      else none
  | _ => none

/-- JavaScript `Number(s)` for a string: the empty string converts to `0`, an
optional-sign decimal numeral to its value, anything else (such as the
fallback marker `"?"`, the only string this server ever feeds to `Number`)
to NaN, modelled as `none`. -/
def jsNumberOfString (s : String) : Option Rat :=
  match s.toList with
  | [] => some 0
  | '-' :: rest => (parseUnsigned rest).map Neg.neg
  | '+' :: rest => parseUnsigned rest
  | l => parseUnsigned l

/-- JavaScript `Number(v)`; `none` models NaN. -/
def jsNumber : JsVal → Option Rat
  | .undef => none
  | .null => some 0
  | .bool b => some (if b then 1 else 0)
  | .num q => some q
  | .str s => jsNumberOfString s

/-- `Number(v) || 0`: NaN (and 0 itself) falls back to 0. -/
def numberOrZero (v : JsVal) : Rat :=
  match jsNumber v with
  | none => 0
  | some q => q

/-- JavaScript `Math.round`: nearest integer, halves toward positive
infinity. -/
def jsRound (q : Rat) : Int :=
  ⌊q + 1 / 2⌋

/-- Decimal rendering of a rational, as JavaScript renders the (decimal,
finitely representable) numbers that occur here: integer part, then the
fractional digits with no trailing zeros; at most 20 fractional digits are
emitted (every number in this development terminates well before that). -/
def fracDigits : Nat → Nat → Nat → List Char
  | 0, _, _ => []
  | _ + 1, 0, _ => []
  | fuel + 1, r, d =>
      let r10 := r * 10
      Char.ofNat (48 + r10 / d) :: fracDigits fuel (r10 % d) d

/-- See `fracDigits`. -/
def ratDecimalString (q : Rat) : String :=
  let sign := if q < 0 then "-" else ""
  let n := q.num.natAbs
  let d := q.den
  let ip := n / d
  let r := n % d
  if r = 0 then sign ++ toString ip
  else sign ++ toString ip ++ "." ++ String.mk (fracDigits 20 r d)

/-- JavaScript template-literal string conversion of a `JsVal`. -/
def jsValToString : JsVal → String
  | .undef => "undefined"
  | .null => "null"
  | .bool b => if b then "true" else "false"
  | .num q => ratDecimalString q
  | .str s => s

/-- Left-pad the decimal rendering of `n` with zeros to `width` digits. -/
def padZeros (width n : Nat) : String :=
  let s := toString n
  if s.length < width then String.mk (List.replicate (width - s.length) '0') ++ s else s

/-- Proleptic-Gregorian civil date (year, month, day) of a day count since
1970-01-01 (the standard era-based conversion, valid for all days since the
epoch). -/
def civilFromDays (z : Nat) : Nat × Nat × Nat :=
  let z' := z + 719468
  let era := z' / 146097
  let doe := z' % 146097
  let yoe := (doe - doe / 1460 + doe / 36524 - doe / 146096) / 365
  let y := yoe + era * 400
  let doy := doe - (365 * yoe + yoe / 4 - yoe / 100)
  let mp := (5 * doy + 2) / 153
  let d := doy - (153 * mp + 2) / 5 + 1
  let mo := if mp < 10 then mp + 3 else mp - 9
  ((if mo ≤ 2 then y + 1 else y), mo, d)

/-- `new Date(ms).toISOString()`: `YYYY-MM-DDTHH:mm:ss.sssZ`. -/
def isoOfMillis (ms : Nat) : String :=
  let msPart := ms % 1000
  let totalSecs := ms / 1000
  let secs := totalSecs % 60
  let mins := totalSecs / 60 % 60
  let hours := totalSecs / 3600 % 24
  let days := totalSecs / 86400
  let ymd := civilFromDays days
  padZeros 4 ymd.1 ++ "-" ++ padZeros 2 ymd.2.1 ++ "-" ++ padZeros 2 ymd.2.2 ++ "T" ++
    padZeros 2 hours ++ ":" ++ padZeros 2 mins ++ ":" ++ padZeros 2 secs ++ "." ++
    padZeros 3 msPart ++ "Z"

/-! ## Suppression window (`lastSendByKey` / `shouldSend`) -/

/-- The process-wide `lastSendByKey` map, key to timestamp (ms). -/
abbrev SuppMap := List (String × Nat)

/-- `lastSendByKey.get(key)`. -/
def SuppMap.get : SuppMap → String → Option Nat
  | [], _ => none
  | (k', v) :: rest, k => if k' = k then some v else SuppMap.get rest k

/-- `lastSendByKey.set(key, v)`: replaces the entry, or appends a fresh one. -/
def SuppMap.set : SuppMap → String → Nat → SuppMap
  | [], k, v => [(k, v)]
  | (k', v') :: rest, k, v =>
      if k' = k then (k, v) :: rest else (k', v') :: SuppMap.set rest k v

/-- `const DEBOUNCE_MS = 90 * 1000`. -/
def DEBOUNCE_MS : Nat := 90 * 1000

/-- `shouldSend(key)` of `Server.js`, with `Date.now()` and the map passed
explicitly: `const last = lastSendByKey.get(key) || 0; if (now - last <
DEBOUNCE_MS) return false; lastSendByKey.set(key, now); return true;`.
(Natural subtraction truncates at 0 exactly where the JavaScript difference
is negative; both sides of the comparison then take the same branch.) -/
def shouldSend (now : Nat) (key : String) (m : SuppMap) : Bool × SuppMap :=
  let last := (m.get key).getD 0
  if now - last < DEBOUNCE_MS then (false, m)
  else (true, m.set key now)

/-! ## Twilio adapter -/

/-- The environment-derived configuration the pipeline reads. Empty string
models an unset variable. -/
structure Config where
  accountSid : String
  authToken : String
  messagingSid : String
  defaultAlertTo : String
deriving DecidableEq, Repr

/-- `twilioClient` is non-null iff both credentials are set. -/
def twilioConfigured (cfg : Config) : Bool :=
  decide (cfg.accountSid ≠ "") && decide (cfg.authToken ≠ "")

/-- `requireTwilio()` of `Server.js`. -/
def requireTwilio (cfg : Config) : Bool :=
  twilioConfigured cfg && decide (cfg.messagingSid ≠ "")

/-- Outcome of one `twilioClient.messages.create(...)` call: the promise
resolves with a message sid or rejects with an error message. -/
inductive ProviderResponse where
  | created (sid : String)
  | failed (message : String)
deriving DecidableEq, Repr

/-- The `{ok, sid}` / `{ok: false, error}` objects the adapter returns. -/
inductive DispatchResult where
  | success (sid : String)
  | failure (error : String)
deriving DecidableEq, Repr

/-- The `ok` field of a `DispatchResult`. -/
def DispatchResult.ok : DispatchResult → Bool
  | .success _ => true
  | .failure _ => false

/-- `sendImmediateSMS({to, body})` of `Server.js`; the second component
counts provider calls made (0 or 1). -/
def sendImmediateSMS (cfg : Config) (presp : ProviderResponse) (toPhone body : String) :
    DispatchResult × Nat :=
  if requireTwilio cfg = false then (.failure "Twilio not configured", 0)
  else if toPhone = "" then (.failure "Missing \"to\" number", 0)
  else if body = "" then (.failure "Missing \"body\"", 0)
  else
    match presp with
    | .created sid => (.success sid, 1)
    | .failed msg => (.failure msg, 1)

/-- `scheduleSMS({to, body, sendAtISO})` of `Server.js`; the provider call
additionally carries `sendAt: sendAtISO, scheduleType: "fixed"`, whose
acceptance or rejection the `ProviderResponse` oracle decides. -/
def scheduleSMS (cfg : Config) (presp : ProviderResponse) (toPhone body sendAtISO : String) :
    DispatchResult × Nat :=
  if requireTwilio cfg = false then (.failure "Twilio not configured", 0)
  else if toPhone = "" then (.failure "Missing \"to\" number", 0)
  else if body = "" then (.failure "Missing \"body\"", 0)
  else
    match presp with
    | .created sid => (.success sid, 1)
    | .failed msg => (.failure msg, 1)

/-! ## Prediction outcome data model -/

/-- One entry of the outcome's `overpressure` list; `radius_km` is kept as a
raw JavaScript value since the server only passes it through `??`,
`Number(...)` and template interpolation. -/
structure Band where
  threshold : String
  radius_km : JsVal
deriving DecidableEq, Repr

/-- The upstream prediction outcome.  The orchestrator inspects only
`hazard_level`, `energy_megatons`, `mode`, `red_alert` and `overpressure`;
`otherFields` stands for the rest of the JSON, which is passed through
untouched. -/
structure PredictionData where
  hazard_level : JsVal
  energy_megatons : JsVal
  mode : JsVal
  red_alert : JsVal
  overpressure : Option (List Band)
  otherFields : List (String × String)
deriving DecidableEq, Repr

/-! ## HTTP responses and the manual handlers -/

/-- The JSON body shapes the three endpoints can answer with. -/
inductive HttpBody where
  | dispatch (r : DispatchResult)
  | errorMsg (e : String)
  | prediction (d : PredictionData)
  | predictionError (error : String) (details : JsVal)
deriving DecidableEq, Repr

/-- An HTTP response: status code and JSON body. -/
structure HttpResponse where
  status : Nat
  body : HttpBody
deriving DecidableEq, Repr

/-- `req.body?.to || DEFAULT_ALERT_TO`. -/
def resolvedTo (cfg : Config) (reqTo : String) : String :=
  if reqTo = "" then cfg.defaultAlertTo else reqTo

/-- `req.body?.body || "Test from Node âœ…"`. -/
def resolvedSendBody (reqBody : String) : String :=
  if reqBody = "" then "Test from Node âœ…" else reqBody

/-- `req.body?.body || "Scheduled from Node â°"`. -/
def resolvedSchedBody (reqBody : String) : String :=
  if reqBody = "" then "Scheduled from Node â°" else reqBody

/-- `req.body?.sendAt || new Date(Date.now() + 60_000).toISOString()`. -/
def resolvedSendAt (now : Nat) (reqSendAt : String) : String :=
  if reqSendAt = "" then isoOfMillis (now + 60000) else reqSendAt

/-- The `/api/send-sms` suppression key: `` `send|${to}|${body}` ``. -/
def sendSmsKey (cfg : Config) (reqTo reqBody : String) : String :=
  "send|" ++ resolvedTo cfg reqTo ++ "|" ++ resolvedSendBody reqBody

/-- The `/api/schedule-sms` suppression key:
`` `sched|${to}|${body}|${sendAtISO}` ``.  Note that `sendAtISO`, and with it
the key, incorporates `Date.now()` when the request omits `sendAt`. -/
def scheduleSmsKey (cfg : Config) (now : Nat) (reqTo reqBody reqSendAt : String) : String :=
  "sched|" ++ resolvedTo cfg reqTo ++ "|" ++ resolvedSchedBody reqBody ++ "|" ++
    resolvedSendAt now reqSendAt

/-- The `/api/send-sms` handler.  Result: the HTTP response, the suppression
map after the call, and the number of provider calls made. -/
def sendSmsHandler (cfg : Config) (presp : ProviderResponse) (now : Nat)
    (m : SuppMap) (reqTo reqBody : String) : HttpResponse × SuppMap × Nat :=
  let toPhone := resolvedTo cfg reqTo
  let body := resolvedSendBody reqBody
  let s := shouldSend now (sendSmsKey cfg reqTo reqBody) m
  if s.1 = false then (⟨429, .errorMsg "Debounced duplicate send"⟩, s.2, 0)
  else
    let rc := sendImmediateSMS cfg presp toPhone body
    if rc.1.ok = false then (⟨400, .dispatch rc.1⟩, s.2, rc.2)
    else (⟨200, .dispatch rc.1⟩, s.2, rc.2)

/-- The `/api/schedule-sms` handler; same result shape as `sendSmsHandler`. -/
def scheduleSmsHandler (cfg : Config) (presp : ProviderResponse) (now : Nat)
    (m : SuppMap) (reqTo reqBody reqSendAt : String) : HttpResponse × SuppMap × Nat :=
  let toPhone := resolvedTo cfg reqTo
  let body := resolvedSchedBody reqBody
  let sendAtISO := resolvedSendAt now reqSendAt
  let s := shouldSend now (scheduleSmsKey cfg now reqTo reqBody reqSendAt) m
  if s.1 = false then (⟨429, .errorMsg "Debounced duplicate schedule"⟩, s.2, 0)
  else
    let rc := scheduleSMS cfg presp toPhone body sendAtISO
    if rc.1.ok = false then (⟨400, .dispatch rc.1⟩, s.2, rc.2)
    else (⟨200, .dispatch rc.1⟩, s.2, rc.2)

/-! ## The `/api/predict` handler -/

/-- `data?.overpressure?.find((b) => b.threshold === "5 psi")`. -/
def findSevereBand (d : PredictionData) : Option Band :=
  d.overpressure.bind (fun bands => bands.find? (fun b => b.threshold == "5 psi"))

/-- The broadcast summary's severe radius:
`data?.overpressure?.find((b) => b.threshold === "5 psi")?.radius_km ?? null`. -/
def severeRadiusOrNull (d : PredictionData) : JsVal :=
  match findSevereBand d with
  | none => .null
  | some b => b.radius_km.coalesce .null

/-- The SMS path's severe radius, same lookup with `?? "?"` instead. -/
def severeRadiusOrQ (d : PredictionData) : JsVal :=
  match findSevereBand d with
  | none => .str "?"
  | some b => b.radius_km.coalesce (.str "?")

/-- The `red_alert` socket event payload. -/
structure BroadcastEvent where
  when : String
  hazard_level : JsVal
  energy_megatons : JsVal
  severe_radius_km : JsVal
  mode : JsVal
  lat : JsVal
  lon : JsVal
deriving DecidableEq, Repr

/-- The event `io.emit("red_alert", ...)` publishes for outcome `d`. -/
def broadcastEventOf (now : Nat) (d : PredictionData) (lat lon : JsVal) : BroadcastEvent :=
  ⟨isoOfMillis now, d.hazard_level, d.energy_megatons, severeRadiusOrNull d, d.mode, lat, lon⟩

/-- `Number.prototype.toFixed(3)`: the value rounded to, and rendered with,
exactly three fractional digits. -/
def toFixed3 (q : Rat) : String :=
  let scaled := jsRound (q * 1000)
  let sign := if scaled < 0 then "-" else ""
  let n := scaled.natAbs
  sign ++ toString (n / 1000) ++ "." ++ padZeros 3 (n % 1000)

/-- `v?.toFixed?.(3) ?? v` rendered into the template: a number is formatted
with `toFixed(3)`; any other value has no `toFixed`, so the `??` falls back
to interpolating the value itself. -/
def coordPart (v : JsVal) : String :=
  match v with
  | .num q => toFixed3 q
  | other => jsValToString other

/-- `Math.max(6, Math.round(Number(severeRadius) || 0))`. -/
def minSafeKm (sr : JsVal) : Int :=
  max 6 (jsRound (numberOrZero sr))

/-- The composed red-alert SMS body (string literals copied byte-for-byte
from the source file). -/
def alertBody (lat lon sr : JsVal) : String :=
  "ðŸš¨ EVACUATE NOW â€“ area near " ++ coordPart lat ++ "," ++
    coordPart lon ++ ". " ++
    "Move beyond " ++ toString (minSafeKm sr) ++ "km from impact point. " ++
    "Severe zone â‰ˆ " ++ jsValToString sr ++ "km. " ++
    "If coastal, go inland/uphill. Help: 104 â€“ Disaster Mgmt Dept"

/-- The red-alert suppression key:
`` `alert|${to}|${req.body?.lat}|${req.body?.lon}|${severeRadius}` ``. -/
def alertKey (toPhone : String) (lat lon sr : JsVal) : String :=
  "alert|" ++ toPhone ++ "|" ++ jsValToString lat ++ "|" ++ jsValToString lon ++ "|" ++
    jsValToString sr

/-- What the `catch` block of `/api/predict` sees of an upstream failure:
`err?.response?.data` (nullish when the failure was a timeout or transport
error) and `err.message`. -/
structure UpstreamErr where
  responseData : JsVal
  message : String
deriving DecidableEq, Repr

/-- `err?.response?.data || err.message`. -/
def upstreamDetails (e : UpstreamErr) : JsVal :=
  if e.responseData.truthy then e.responseData else .str e.message

/-- Observable side effects of one `/api/predict` invocation, in program
order: the socket broadcast, the suppression-window check, and the provider
dispatch. -/
inductive Ev where
  | broadcast (e : BroadcastEvent)
  | admitCheck (key : String) (admitted : Bool)
  | smsDispatch (toPhone body : String) (r : DispatchResult)
deriving DecidableEq, Repr

/-- Whether an `Ev` is the socket broadcast. -/
def Ev.isBroadcast : Ev → Bool
  | .broadcast _ => true
  | _ => false

/-- The `/api/predict` handler.  `upstream` is the outcome of
`axios.post(FASTAPI_URL + "/predict", req.body, 15s timeout)`: `.ok` its
response data, `.error` a timeout/transport/HTTP failure.  Result: the HTTP
response, the suppression map after the call, and the ordered list of side
effects. -/
def predictHandler (cfg : Config) (presp : ProviderResponse) (now : Nat) (m : SuppMap)
    (upstream : Except UpstreamErr PredictionData) (lat lon : JsVal) (notifyPhone : String) :
    HttpResponse × SuppMap × List Ev :=
  match upstream with
  | .error e => (⟨400, .predictionError "Prediction failed" (upstreamDetails e)⟩, m, [])
  | .ok data =>
    let ev := Ev.broadcast (broadcastEventOf now data lat lon)
    if data.red_alert.truthy then
      let toPhone := if notifyPhone = "" then cfg.defaultAlertTo else notifyPhone
      if toPhone = "" then (⟨200, .prediction data⟩, m, [ev])
      else
        let sr := severeRadiusOrQ data
        let body := alertBody lat lon sr
        let key := alertKey toPhone lat lon sr
        let s := shouldSend now key m
        if s.1 then
          let rc := sendImmediateSMS cfg presp toPhone body
          (⟨200, .prediction data⟩, s.2, [ev, .admitCheck key true, .smsDispatch toPhone body rc.1])
        else
          (⟨200, .prediction data⟩, s.2, [ev, .admitCheck key false])
    else (⟨200, .prediction data⟩, m, [ev])

/-! ## Lemmas about the suppression map -/

theorem SuppMap.get_set_self (m : SuppMap) (k : String) (v : Nat) :
    (m.set k v).get k = some v := by
  induction m with
  | nil => simp [SuppMap.set, SuppMap.get]
  | cons hd tl ih =>
      obtain ⟨k0, v0⟩ := hd
      by_cases h : k0 = k <;> simp [SuppMap.set, SuppMap.get, h, ih]

theorem SuppMap.get_set_ne (m : SuppMap) (k k' : String) (v : Nat) (h : k' ≠ k) :
    (m.set k v).get k' = m.get k' := by
  have h' : ¬ k = k' := fun hh => h hh.symm
  induction m with
  | nil => simp [SuppMap.set, SuppMap.get, h']
  | cons hd tl ih =>
      obtain ⟨k0, v0⟩ := hd
      by_cases h0 : k0 = k
      · subst h0
        simp [SuppMap.set, SuppMap.get, h']
      · simp [SuppMap.set, SuppMap.get, h0, ih]

theorem shouldSend_true_of (now : Nat) (key : String) (m : SuppMap)
    (h : DEBOUNCE_MS ≤ now - (m.get key).getD 0) :
    shouldSend now key m = (true, m.set key now) := by
  simp only [shouldSend]
  rw [if_neg (Nat.not_lt.mpr h)]

theorem shouldSend_suppress (now : Nat) (key : String) (m : SuppMap)
    (h : now - (m.get key).getD 0 < DEBOUNCE_MS) :
    shouldSend now key m = (false, m) := by
  simp only [shouldSend]
  rw [if_pos h]

theorem resolvedSendBody_ne (reqBody : String) : resolvedSendBody reqBody ≠ "" := by
  unfold resolvedSendBody
  split
  · decide
  · assumption

theorem resolvedSchedBody_ne (reqBody : String) : resolvedSchedBody reqBody ≠ "" := by
  unfold resolvedSchedBody
  split
  · decide
  · assumption

/-! ## The claims -/

/-- C2: `shouldSend` suppresses (returns false, map untouched) exactly when
the elapsed time since the key's recorded timestamp is under 90 seconds;
otherwise — an absent key included — it records `now` for the key (leaving
all other keys alone) and admits.  The clock hypothesis `DEBOUNCE_MS ≤ now`
says the current time is at least 90 seconds past the Unix epoch, which is
what makes the code's `|| 0` encoding of an absent key behave as "infinitely
long elapsed". -/
theorem shouldSend_admits_iff_window_elapsed (now : Nat) (key : String) (m : SuppMap)
    (hclock : DEBOUNCE_MS ≤ now) :
    (∀ last, m.get key = some last → now - last < DEBOUNCE_MS →
        shouldSend now key m = (false, m)) ∧
    ((m.get key = none ∨ ∃ last, m.get key = some last ∧ DEBOUNCE_MS ≤ now - last) →
        (shouldSend now key m).1 = true ∧
        (shouldSend now key m).2.get key = some now ∧
        ∀ k, k ≠ key → (shouldSend now key m).2.get k = m.get k) := by
  constructor
  · intro last hlast hlt
    apply shouldSend_suppress
    rw [hlast]
    exact hlt
  · intro h
    have hfresh : DEBOUNCE_MS ≤ now - (m.get key).getD 0 := by
      rcases h with hnone | ⟨last, hsome, hge⟩
      · rw [hnone]
        simpa using hclock
      · rw [hsome]
        exact hge
    rw [shouldSend_true_of now key m hfresh]
    exact ⟨rfl, SuppMap.get_set_self m key now,
      fun k hk => SuppMap.get_set_ne m key k now hk⟩

/-- Witness for C2: on an empty map (key absent) at a realistic clock value,
`shouldSend` admits and records the time. -/
theorem shouldSend_admits_iff_window_elapsed_witness :
    DEBOUNCE_MS ≤ 200000 ∧
    (shouldSend 200000 "send|+911234567890|hello" []).1 = true ∧
    (shouldSend 200000 "send|+911234567890|hello" []).2.get "send|+911234567890|hello" =
      some 200000 :=
  ⟨by decide,
   ((shouldSend_admits_iff_window_elapsed 200000 "send|+911234567890|hello" []
      (by decide)).2 (Or.inl rfl)).1,
   ((shouldSend_admits_iff_window_elapsed 200000 "send|+911234567890|hello" []
      (by decide)).2 (Or.inl rfl)).2.1⟩

/-- C8: both adapter functions check their preconditions before any provider
call — configuration first, then recipient, then body — and each failure is a
distinct failed `DispatchResult` produced with zero provider calls.  (That
the configuration check comes first is visible in the first implication
holding for arbitrary recipient and body, and so on down the chain.) -/
theorem adapter_preconditions_ordered (cfg : Config) (presp : ProviderResponse)
    (toPhone body sendAtISO : String) :
    (requireTwilio cfg = false →
        sendImmediateSMS cfg presp toPhone body = (.failure "Twilio not configured", 0) ∧
        scheduleSMS cfg presp toPhone body sendAtISO = (.failure "Twilio not configured", 0)) ∧
    (requireTwilio cfg = true → toPhone = "" →
        sendImmediateSMS cfg presp toPhone body = (.failure "Missing \"to\" number", 0) ∧
        scheduleSMS cfg presp toPhone body sendAtISO = (.failure "Missing \"to\" number", 0)) ∧
    (requireTwilio cfg = true → toPhone ≠ "" → body = "" →
        sendImmediateSMS cfg presp toPhone body = (.failure "Missing \"body\"", 0) ∧
        scheduleSMS cfg presp toPhone body sendAtISO = (.failure "Missing \"body\"", 0)) ∧
    (("Twilio not configured" : String) ≠ "Missing \"to\" number" ∧
     ("Twilio not configured" : String) ≠ "Missing \"body\"" ∧
     ("Missing \"to\" number" : String) ≠ "Missing \"body\"") := by
  refine ⟨?_, ?_, ?_, by decide⟩
  · intro h
    constructor <;> simp [sendImmediateSMS, scheduleSMS, h]
  · intro h ht
    constructor <;> simp [sendImmediateSMS, scheduleSMS, h, ht]
  · intro h ht hb
    constructor <;> simp [sendImmediateSMS, scheduleSMS, h, ht, hb]

/-- Witness for C8: one concrete instance of each precondition failure. -/
theorem adapter_preconditions_ordered_witness :
    sendImmediateSMS ⟨"", "", "", ""⟩ (.created "SM1") "+15550000001" "hi" =
      (.failure "Twilio not configured", 0) ∧
    sendImmediateSMS ⟨"AC1", "TK1", "MG1", ""⟩ (.created "SM1") "" "hi" =
      (.failure "Missing \"to\" number", 0) ∧
    scheduleSMS ⟨"AC1", "TK1", "MG1", ""⟩ (.created "SM1") "+15550000001" ""
        "2030-01-01T00:00:00.000Z" =
      (.failure "Missing \"body\"", 0) :=
  ⟨((adapter_preconditions_ordered ⟨"", "", "", ""⟩ (.created "SM1") "+15550000001" "hi"
      "x").1 (by decide)).1,
   ((adapter_preconditions_ordered ⟨"AC1", "TK1", "MG1", ""⟩ (.created "SM1") "" "hi"
      "x").2.1 (by decide) rfl).1,
   ((adapter_preconditions_ordered ⟨"AC1", "TK1", "MG1", ""⟩ (.created "SM1") "+15550000001" ""
      "2030-01-01T00:00:00.000Z").2.2.1 (by decide) (by decide) rfl).2⟩

/-- C9: when the upstream prediction call fails, `/api/predict` answers 400
with `error: "Prediction failed"` and `details` equal to the upstream error
detail when available (`err?.response?.data || err.message`), the suppression
map is untouched, and no side effect — neither broadcast nor suppression
check nor provider dispatch — occurs (the effect trace is empty). -/
theorem predict_upstream_failure_no_side_effects (cfg : Config) (presp : ProviderResponse)
    (now : Nat) (m : SuppMap) (e : UpstreamErr) (lat lon : JsVal) (notifyPhone : String) :
    predictHandler cfg presp now m (.error e) lat lon notifyPhone =
      (⟨400, .predictionError "Prediction failed" (upstreamDetails e)⟩, m, []) :=
  rfl

/-- C6: whenever the upstream call succeeds, `/api/predict` answers 200 with
the unmodified prediction outcome, on every path — no recipient, suppressed,
dispatched, or provider failure — independently of the provider oracle, the
clock and the suppression state. -/
theorem predict_response_is_outcome (cfg : Config) (presp : ProviderResponse)
    (now : Nat) (m : SuppMap) (data : PredictionData) (lat lon : JsVal)
    (notifyPhone : String) :
    (predictHandler cfg presp now m (.ok data) lat lon notifyPhone).1 =
      ⟨200, .prediction data⟩ := by
  simp only [predictHandler]
  repeat' split
  all_goals rfl

/-- C5: whenever the upstream call succeeds, the effect trace of
`/api/predict` starts with the one and only broadcast event — so the
broadcast is published exactly once, regardless of the red-alert flag, and
before any suppression check or SMS dispatch of the same invocation. -/
theorem predict_broadcast_first_and_once (cfg : Config) (presp : ProviderResponse)
    (now : Nat) (m : SuppMap) (data : PredictionData) (lat lon : JsVal)
    (notifyPhone : String) :
    ∃ rest,
      (predictHandler cfg presp now m (.ok data) lat lon notifyPhone).2.2 =
        Ev.broadcast (broadcastEventOf now data lat lon) :: rest ∧
      rest.countP Ev.isBroadcast = 0 := by
  simp only [predictHandler]
  repeat' split
  all_goals refine ⟨_, rfl, ?_⟩
  all_goals simp [List.countP_cons, List.countP_nil, Ev.isBroadcast]

/-- C3: with a configured provider and a resolvable recipient, two
`/api/send-sms` calls with identical `(to, body)` inside the 90-second
window make exactly one provider dispatch: the first call dispatches once
(whatever the provider answers), the second call dispatches zero times and
answers 429 with the debounce error instead of a dispatch result. -/
theorem sendSms_second_call_suppressed (cfg : Config) (r1 r2 : ProviderResponse)
    (t1 t2 : Nat) (m : SuppMap) (reqTo reqBody : String)
    (hconf : requireTwilio cfg = true)
    (hto : resolvedTo cfg reqTo ≠ "")
    (hfresh : DEBOUNCE_MS ≤ t1 - ((m.get (sendSmsKey cfg reqTo reqBody)).getD 0))
    (hwin : t2 - t1 < DEBOUNCE_MS) :
    (sendSmsHandler cfg r1 t1 m reqTo reqBody).2.2 = 1 ∧
    (sendSmsHandler cfg r2 t2 (sendSmsHandler cfg r1 t1 m reqTo reqBody).2.1
        reqTo reqBody).1 = ⟨429, .errorMsg "Debounced duplicate send"⟩ ∧
    (sendSmsHandler cfg r2 t2 (sendSmsHandler cfg r1 t1 m reqTo reqBody).2.1
        reqTo reqBody).2.2 = 0 := by
  have h1 : shouldSend t1 (sendSmsKey cfg reqTo reqBody) m =
      (true, m.set (sendSmsKey cfg reqTo reqBody) t1) :=
    shouldSend_true_of _ _ _ hfresh
  have hbody := resolvedSendBody_ne reqBody
  have h2 : (sendSmsHandler cfg r1 t1 m reqTo reqBody).2 =
      (m.set (sendSmsKey cfg reqTo reqBody) t1, 1) := by
    cases r1 <;>
      simp [sendSmsHandler, h1, sendImmediateSMS, hconf, hto, hbody, DispatchResult.ok]
  have h3 : shouldSend t2 (sendSmsKey cfg reqTo reqBody)
      (m.set (sendSmsKey cfg reqTo reqBody) t1) =
      (false, m.set (sendSmsKey cfg reqTo reqBody) t1) := by
    apply shouldSend_suppress
    rw [SuppMap.get_set_self]
    exact hwin
  have hm1 : (sendSmsHandler cfg r1 t1 m reqTo reqBody).2.1 =
      m.set (sendSmsKey cfg reqTo reqBody) t1 := by rw [h2]
  refine ⟨?_, ?_, ?_⟩
  · rw [h2]
  · rw [hm1]
    simp [sendSmsHandler, h3]
  · rw [hm1]
    simp [sendSmsHandler, h3]

/-- Witness for C3: a configured provider, default recipient, empty map,
calls at 100 s and 150 s. -/
theorem sendSms_second_call_suppressed_witness :
    requireTwilio ⟨"AC1", "TK1", "MG1", "+911234500000"⟩ = true ∧
    resolvedTo ⟨"AC1", "TK1", "MG1", "+911234500000"⟩ "" ≠ "" ∧
    DEBOUNCE_MS ≤ 100000 -
      ((SuppMap.get [] (sendSmsKey ⟨"AC1", "TK1", "MG1", "+911234500000"⟩ "" "")).getD 0) ∧
    150000 - 100000 < DEBOUNCE_MS ∧
    (sendSmsHandler ⟨"AC1", "TK1", "MG1", "+911234500000"⟩ (.created "SM1") 100000 []
        "" "").2.2 = 1 ∧
    (sendSmsHandler ⟨"AC1", "TK1", "MG1", "+911234500000"⟩ (.created "SM2") 150000
        (sendSmsHandler ⟨"AC1", "TK1", "MG1", "+911234500000"⟩ (.created "SM1") 100000 []
          "" "").2.1 "" "").1 = ⟨429, .errorMsg "Debounced duplicate send"⟩ :=
  ⟨by decide, by decide, by decide, by decide,
   (sendSms_second_call_suppressed ⟨"AC1", "TK1", "MG1", "+911234500000"⟩
      (.created "SM1") (.created "SM2") 100000 150000 [] "" ""
      (by decide) (by decide) (by decide) (by decide)).1,
   (sendSms_second_call_suppressed ⟨"AC1", "TK1", "MG1", "+911234500000"⟩
      (.created "SM1") (.created "SM2") 100000 150000 [] "" ""
      (by decide) (by decide) (by decide) (by decide)).2.1⟩

theorem scheduleSmsKey_time_free (cfg : Config) (t1 t2 : Nat)
    (reqTo reqBody reqSendAt : String) (h : reqSendAt ≠ "") :
    scheduleSmsKey cfg t1 reqTo reqBody reqSendAt =
      scheduleSmsKey cfg t2 reqTo reqBody reqSendAt := by
  simp [scheduleSmsKey, resolvedSendAt, h]

/-- C10 counterexample: a manual-schedule call that omits `sendAt` and whose
dispatch fails (unconfigured provider, first answer 400) is retried
byte-identically 50 seconds later — well inside the 90-second window — and
the retry reproduces the 400 failure instead of returning the claimed
429-equivalent response: the defaulted `sendAtISO` has moved with the clock,
so the retry derives a fresh key and passes the suppression check again. -/
theorem scheduleRetry_reproduces_failure_cex :
    (scheduleSmsHandler ⟨"", "", "", "+15550002222"⟩ (.failed "n/a") 200000 []
        "" "" "").1 = ⟨400, .dispatch (.failure "Twilio not configured")⟩ ∧
    (scheduleSmsHandler ⟨"", "", "", "+15550002222"⟩ (.failed "n/a") 250000
        (scheduleSmsHandler ⟨"", "", "", "+15550002222"⟩ (.failed "n/a") 200000 []
          "" "" "").2.1 "" "" "").1 =
      ⟨400, .dispatch (.failure "Twilio not configured")⟩ ∧
    250000 - 200000 < DEBOUNCE_MS :=
  ⟨by decide, by decide, by decide⟩

/-- C10 (amended): an admitted `/api/send-sms` call — and an admitted
`/api/schedule-sms` call whose request supplies `sendAt` — records its
timestamp in the suppression map whether or not the dispatch then fails (no
configuration or provider hypotheses at all), so an identical retry inside
the window answers 429 with zero provider calls instead of reproducing the
failure; a schedule call that omits `sendAt` is exempt, since its
time-defaulted key lets the retry through (see the counterexample). -/
theorem manual_timestamp_survives_failed_dispatch (cfg : Config)
    (r1 r2 : ProviderResponse) (t1 t2 : Nat) (m : SuppMap)
    (reqTo reqBody reqSendAt : String)
    (hwin : t2 - t1 < DEBOUNCE_MS) :
    (DEBOUNCE_MS ≤ t1 - ((m.get (sendSmsKey cfg reqTo reqBody)).getD 0) →
      (sendSmsHandler cfg r1 t1 m reqTo reqBody).2.1.get (sendSmsKey cfg reqTo reqBody) =
        some t1 ∧
      (sendSmsHandler cfg r2 t2 (sendSmsHandler cfg r1 t1 m reqTo reqBody).2.1
          reqTo reqBody).1 = ⟨429, .errorMsg "Debounced duplicate send"⟩ ∧
      (sendSmsHandler cfg r2 t2 (sendSmsHandler cfg r1 t1 m reqTo reqBody).2.1
          reqTo reqBody).2.2 = 0) ∧
    (reqSendAt ≠ "" →
      DEBOUNCE_MS ≤ t1 - ((m.get (scheduleSmsKey cfg t1 reqTo reqBody reqSendAt)).getD 0) →
      (scheduleSmsHandler cfg r1 t1 m reqTo reqBody reqSendAt).2.1.get
          (scheduleSmsKey cfg t1 reqTo reqBody reqSendAt) = some t1 ∧
      (scheduleSmsHandler cfg r2 t2
          (scheduleSmsHandler cfg r1 t1 m reqTo reqBody reqSendAt).2.1
          reqTo reqBody reqSendAt).1 = ⟨429, .errorMsg "Debounced duplicate schedule"⟩ ∧
      (scheduleSmsHandler cfg r2 t2
          (scheduleSmsHandler cfg r1 t1 m reqTo reqBody reqSendAt).2.1
          reqTo reqBody reqSendAt).2.2 = 0) := by
  constructor
  · intro hfresh
    have h1 : shouldSend t1 (sendSmsKey cfg reqTo reqBody) m =
        (true, m.set (sendSmsKey cfg reqTo reqBody) t1) :=
      shouldSend_true_of _ _ _ hfresh
    have hm1 : (sendSmsHandler cfg r1 t1 m reqTo reqBody).2.1 =
        m.set (sendSmsKey cfg reqTo reqBody) t1 := by
      simp only [sendSmsHandler, h1]
      repeat' split
      all_goals rfl
    have h3 : shouldSend t2 (sendSmsKey cfg reqTo reqBody)
        (m.set (sendSmsKey cfg reqTo reqBody) t1) =
        (false, m.set (sendSmsKey cfg reqTo reqBody) t1) := by
      apply shouldSend_suppress
      rw [SuppMap.get_set_self]
      exact hwin
    refine ⟨?_, ?_, ?_⟩
    · rw [hm1, SuppMap.get_set_self]
    · rw [hm1]
      simp [sendSmsHandler, h3]
    · rw [hm1]
      simp [sendSmsHandler, h3]
  · intro hAt hfresh
    have h1 : shouldSend t1 (scheduleSmsKey cfg t1 reqTo reqBody reqSendAt) m =
        (true, m.set (scheduleSmsKey cfg t1 reqTo reqBody reqSendAt) t1) :=
      shouldSend_true_of _ _ _ hfresh
    have hm1 : (scheduleSmsHandler cfg r1 t1 m reqTo reqBody reqSendAt).2.1 =
        m.set (scheduleSmsKey cfg t1 reqTo reqBody reqSendAt) t1 := by
      simp only [scheduleSmsHandler, h1]
      repeat' split
      all_goals rfl
    have h3 : shouldSend t2 (scheduleSmsKey cfg t2 reqTo reqBody reqSendAt)
        (m.set (scheduleSmsKey cfg t1 reqTo reqBody reqSendAt) t1) =
        (false, m.set (scheduleSmsKey cfg t1 reqTo reqBody reqSendAt) t1) := by
      rw [scheduleSmsKey_time_free cfg t2 t1 reqTo reqBody reqSendAt hAt]
      apply shouldSend_suppress
      rw [SuppMap.get_set_self]
      exact hwin
    refine ⟨?_, ?_, ?_⟩
    · rw [hm1, SuppMap.get_set_self]
    · rw [hm1]
      simp [scheduleSmsHandler, h3]
    · rw [hm1]
      simp [scheduleSmsHandler, h3]

/-- Witness for the amended C10: the provider is unconfigured, so the first
call of each endpoint fails with a 400, yet the identical retry 50 s later —
with `sendAt` supplied on the schedule side — gets the 429 debounce
answer. -/
theorem manual_timestamp_survives_failed_dispatch_witness :
    150000 - 100000 < DEBOUNCE_MS ∧
    DEBOUNCE_MS ≤ 100000 -
      ((SuppMap.get [] (sendSmsKey ⟨"", "", "", "+15550001111"⟩ "" "")).getD 0) ∧
    ("2030-01-01T00:00:00.000Z" : String) ≠ "" ∧
    DEBOUNCE_MS ≤ 100000 -
      ((SuppMap.get [] (scheduleSmsKey ⟨"", "", "", "+15550001111"⟩ 100000 "" ""
        "2030-01-01T00:00:00.000Z")).getD 0) ∧
    (sendSmsHandler ⟨"", "", "", "+15550001111"⟩ (.failed "boom") 100000 [] "" "").1 =
      ⟨400, .dispatch (.failure "Twilio not configured")⟩ ∧
    (sendSmsHandler ⟨"", "", "", "+15550001111"⟩ (.failed "boom") 100000 []
        "" "").2.1.get (sendSmsKey ⟨"", "", "", "+15550001111"⟩ "" "") = some 100000 ∧
    (sendSmsHandler ⟨"", "", "", "+15550001111"⟩ (.failed "boom") 150000
        (sendSmsHandler ⟨"", "", "", "+15550001111"⟩ (.failed "boom") 100000 [] "" "").2.1
        "" "").1 = ⟨429, .errorMsg "Debounced duplicate send"⟩ ∧
    (scheduleSmsHandler ⟨"", "", "", "+15550001111"⟩ (.failed "boom") 100000 [] "" ""
        "2030-01-01T00:00:00.000Z").1 =
      ⟨400, .dispatch (.failure "Twilio not configured")⟩ ∧
    (scheduleSmsHandler ⟨"", "", "", "+15550001111"⟩ (.failed "boom") 150000
        (scheduleSmsHandler ⟨"", "", "", "+15550001111"⟩ (.failed "boom") 100000 [] "" ""
          "2030-01-01T00:00:00.000Z").2.1
        "" "" "2030-01-01T00:00:00.000Z").1 =
      ⟨429, .errorMsg "Debounced duplicate schedule"⟩ :=
  ⟨by decide, by decide, by decide, by decide, by decide,
   ((manual_timestamp_survives_failed_dispatch ⟨"", "", "", "+15550001111"⟩
      (.failed "boom") (.failed "boom") 100000 150000 [] "" ""
      "2030-01-01T00:00:00.000Z" (by decide)).1 (by decide)).1,
   ((manual_timestamp_survives_failed_dispatch ⟨"", "", "", "+15550001111"⟩
      (.failed "boom") (.failed "boom") 100000 150000 [] "" ""
      "2030-01-01T00:00:00.000Z" (by decide)).1 (by decide)).2.1,
   by decide,
   ((manual_timestamp_survives_failed_dispatch ⟨"", "", "", "+15550001111"⟩
      (.failed "boom") (.failed "boom") 100000 150000 [] "" ""
      "2030-01-01T00:00:00.000Z" (by decide)).2 (by decide) (by decide)).2.1⟩

/-- C1 counterexample: two identical manual-schedule requests that omit
`sendAt` (one second apart, well inside the 90-second window, everything
else byte-identical) derive different suppression keys, because the
defaulted `sendAtISO = new Date(Date.now() + 60_000).toISOString()` flows
into the key; consequently the second request is not suppressed — it reaches
the adapter again (status 400 from the unconfigured provider, not 429). -/
theorem scheduleKey_reads_clock_cex :
    scheduleSmsKey ⟨"", "", "", "+15550001111"⟩ 100000 "" "" "" ≠
      scheduleSmsKey ⟨"", "", "", "+15550001111"⟩ 101000 "" "" "" ∧
    (scheduleSmsHandler ⟨"", "", "", "+15550001111"⟩ (.failed "n/a") 101000
        (scheduleSmsHandler ⟨"", "", "", "+15550001111"⟩ (.failed "n/a") 100000 []
          "" "" "").2.1 "" "" "").1 =
      ⟨400, .dispatch (.failure "Twilio not configured")⟩ := by
  constructor
  · decide
  · decide

/-- C1 (amended): the suppression key is a pure function of request content
for manual-send and red-alert requests (their key derivations take no clock
input at all) and for manual-schedule requests that supply `sendAt`; only a
manual-schedule request omitting `sendAt` folds the current time into the
defaulted timestamp and hence into the key. -/
theorem scheduleKey_pure_given_sendAt (cfg : Config) (t1 t2 : Nat)
    (reqTo reqBody reqSendAt : String) (h : reqSendAt ≠ "") :
    scheduleSmsKey cfg t1 reqTo reqBody reqSendAt =
      scheduleSmsKey cfg t2 reqTo reqBody reqSendAt := by
  simp [scheduleSmsKey, resolvedSendAt, h]

/-- Witness for the amended C1: with an explicit `sendAt`, the key is the
same at two far-apart clock readings. -/
theorem scheduleKey_pure_given_sendAt_witness :
    ("2030-01-01T00:00:00.000Z" : String) ≠ "" ∧
    scheduleSmsKey ⟨"", "", "", "+15550001111"⟩ 0 "+15550002222" "hello"
        "2030-01-01T00:00:00.000Z" =
      scheduleSmsKey ⟨"", "", "", "+15550001111"⟩ 999999999 "+15550002222" "hello"
        "2030-01-01T00:00:00.000Z" :=
  ⟨by decide,
   scheduleKey_pure_given_sendAt ⟨"", "", "", "+15550001111"⟩ 0 999999999
     "+15550002222" "hello" "2030-01-01T00:00:00.000Z" (by decide)⟩

/-- C4 counterexample: on an outcome whose overpressure list has no "5 psi"
band, the SMS-path severe radius is the string "?" while the broadcast
summary's severe radius is null — the two computations do not agree. -/
theorem severeRadius_band_absent_cex :
    severeRadiusOrQ ⟨.str "High", .num 100, .str "simulation", .bool true,
        some [⟨"3 psi", .num 12⟩], []⟩ ≠
      severeRadiusOrNull ⟨.str "High", .num 100, .str "simulation", .bool true,
        some [⟨"3 psi", .num 12⟩], []⟩ := by
  decide

/-- C4 (amended): the step-5 (SMS) severe radius and the step-2 (broadcast)
severe radius are computed by the same "5 psi" band lookup and agree on
every outcome where that band is present with a non-nullish radius; when the
band or its radius is absent they differ by their fallbacks — null in the
broadcast summary, the string "?" in the SMS path. -/
theorem severeRadius_agreement (d : PredictionData) :
    (∃ b, findSevereBand d = some b ∧ b.radius_km.isNullish = false ∧
        severeRadiusOrNull d = b.radius_km ∧ severeRadiusOrQ d = b.radius_km) ∨
    (severeRadiusOrNull d = .null ∧ severeRadiusOrQ d = .str "?") := by
  cases hb : findSevereBand d with
  | none =>
      right
      simp [severeRadiusOrNull, severeRadiusOrQ, hb]
  | some b =>
      cases hn : b.radius_km.isNullish with
      | false =>
          left
          exact ⟨b, rfl, hn,
            by simp [severeRadiusOrNull, hb, JsVal.coalesce, hn],
            by simp [severeRadiusOrQ, hb, JsVal.coalesce, hn]⟩
      | true =>
          right
          simp [severeRadiusOrNull, severeRadiusOrQ, hb, JsVal.coalesce, hn]

/-- C7: the composed SMS body carries the minimum-safe-distance figure
`max(6, round(severeRadius))`, which falls back to 6 on the non-numeric
marker "?", and renders the severe radius itself as-is; in particular, for
severe radius 12.3 the figure is 12 and the literal "12.3" appears in the
body. -/
theorem alertBody_min_distance_and_radius :
    (∀ q : Rat, minSafeKm (.num q) = max 6 (jsRound q)) ∧
    minSafeKm (.str "?") = 6 ∧
    jsValToString (JsVal.str "?") = "?" ∧
    (∀ lat lon sr : JsVal,
      alertBody lat lon sr =
        "ðŸš¨ EVACUATE NOW â€“ area near " ++ coordPart lat ++ "," ++
          coordPart lon ++ ". " ++
          "Move beyond " ++ toString (minSafeKm sr) ++ "km from impact point. " ++
          "Severe zone â‰ˆ " ++ jsValToString sr ++ "km. " ++
          "If coastal, go inland/uphill. Help: 104 â€“ Disaster Mgmt Dept") ∧
    toString (minSafeKm (JsVal.num (mkRat 123 10))) = "12" ∧
    jsValToString (JsVal.num (mkRat 123 10)) = "12.3" := by
  have hq : numberOrZero (JsVal.str "?") = 0 := rfl
  have h12 : minSafeKm (JsVal.num (mkRat 123 10)) = 12 := by
    simp only [minSafeKm, numberOrZero, jsNumber, jsRound]
    norm_num [Rat.mkRat_eq_div]
  refine ⟨?_, ?_, rfl, fun lat lon sr => rfl, ?_, rfl⟩
  · intro q
    simp [minSafeKm, numberOrZero, jsNumber]
  · simp only [minSafeKm, hq, jsRound]
    norm_num
  · rw [h12]
    rfl
